import Mathlib

/-!
Verification of the OpenSalesAI ML core (services/ai-service/app/ml) against
its natural-language specification.

The Python source is shallowly embedded: floats are modelled as exact
rationals (`ℚ`), Python's `round(x, d)` (round-half-even) as `roundTo`,
fallible paths as `Except`/`Option`, and external collaborators (database
fetches, the OR-Tools TSP solver, scikit-learn / Prophet / XGBoost model
fitting) as explicit parameters, since their outputs enter the embedded
control flow as plain data.
-/

namespace OpenSalesAI

/-- Python's built-in `round` to an integer: round half to even. -/
def pyRoundInt (x : ℚ) : ℤ :=
  if x - ⌊x⌋ < 1/2 then ⌊x⌋
  else if 1/2 < x - ⌊x⌋ then ⌊x⌋ + 1
  else if ⌊x⌋ % 2 = 0 then ⌊x⌋ else ⌊x⌋ + 1

/-- Python's `round(x, d)`: round half to even at `d` decimal places. -/
def roundTo (d : ℕ) (x : ℚ) : ℚ :=
  (pyRoundInt (x * (10 : ℚ) ^ d) : ℚ) / (10 : ℚ) ^ d

theorem pyRoundInt_nonneg {x : ℚ} (hx : 0 ≤ x) : 0 ≤ pyRoundInt x := by
  unfold pyRoundInt
  have hf : (0 : ℤ) ≤ ⌊x⌋ := Int.floor_nonneg.mpr hx
  split_ifs <;> omega

theorem roundTo_nonneg {d : ℕ} {x : ℚ} (hx : 0 ≤ x) : 0 ≤ roundTo d x := by
  unfold roundTo
  have h10 : (0 : ℚ) < (10 : ℚ) ^ d := by positivity
  have : 0 ≤ x * (10 : ℚ) ^ d := by positivity
  have := pyRoundInt_nonneg this
  have : (0 : ℚ) ≤ (pyRoundInt (x * (10 : ℚ) ^ d) : ℚ) := by exact_mod_cast this
  positivity

theorem roundTo_zero (d : ℕ) : roundTo d 0 = 0 := by
  unfold roundTo pyRoundInt
  norm_num

/-! ## Risk tiers (attrition.py, credit_score.py) — claim C6

`churnRiskLevel` embeds the threshold ladder of `AttritionPredictor.predict`
(attrition.py lines 157-165); `TIER_THRESHOLDS` and `creditTier` embed
`CreditScorer.TIER_THRESHOLDS` (credit_score.py lines 68-73) and the
first-match loop of `CreditScorer.score` (lines 194-199), where iteration
follows the dict's insertion order A, B, C, D and `break` stops at the
first threshold that the score meets; the initial value of `tier` is "D".
-/

/-- Risk-level ladder of `AttritionPredictor.predict` (attrition.py 157-165). -/
def churnRiskLevel (churn_prob : ℚ) : String :=
  if churn_prob ≥ 4/5 then "critical"
  else if churn_prob ≥ 3/5 then "high"
  else if churn_prob ≥ 7/20 then "medium"
  else "low"

/-- `CreditScorer.TIER_THRESHOLDS` (credit_score.py 68-73), in dict insertion order. -/
def TIER_THRESHOLDS : List (String × ℤ) := [("A", 75), ("B", 55), ("C", 35), ("D", 0)]

/-- Tier lookup of `CreditScorer.score` (credit_score.py 194-199): start at
"D", take the first entry of `TIER_THRESHOLDS` whose threshold the score
meets. -/
def creditTier (score : ℤ) : String :=
  match TIER_THRESHOLDS.find? (fun t => decide (t.2 ≤ score)) with
  | some t => t.1
  | none => "D"

theorem churnRiskLevel_iff (p : ℚ) :
    (churnRiskLevel p = "critical" ↔ 4/5 ≤ p) ∧
    (churnRiskLevel p = "high" ↔ 3/5 ≤ p ∧ p < 4/5) ∧
    (churnRiskLevel p = "medium" ↔ 7/20 ≤ p ∧ p < 3/5) ∧
    (churnRiskLevel p = "low" ↔ p < 7/20) := by
  unfold churnRiskLevel
  split_ifs with h1 h2 h3 <;>
    refine ⟨?_, ?_, ?_, ?_⟩ <;>
      simp_all <;>
        first
          | linarith
          | (intro hh; linarith)

theorem creditTier_eq_ladder (s : ℤ) :
    creditTier s =
      if 75 ≤ s then "A" else if 55 ≤ s then "B"
      else if 35 ≤ s then "C" else "D" := by
  unfold creditTier TIER_THRESHOLDS
  by_cases h75 : (75 : ℤ) ≤ s <;> by_cases h55 : (55 : ℤ) ≤ s <;>
    by_cases h35 : (35 : ℤ) ≤ s <;> by_cases h0 : (0 : ℤ) ≤ s <;>
      simp [List.find?, h75, h55, h35, h0]

theorem creditTier_iff (s : ℤ) :
    (creditTier s = "A" ↔ 75 ≤ s) ∧
    (creditTier s = "B" ↔ 55 ≤ s ∧ s < 75) ∧
    (creditTier s = "C" ↔ 35 ≤ s ∧ s < 55) ∧
    (creditTier s = "D" ↔ s < 35) := by
  rw [creditTier_eq_ladder]
  split_ifs with h75 h55 h35 <;> refine ⟨?_, ?_, ?_, ?_⟩ <;> simp <;> omega

/-- C6: risk-tier assignment is a high-to-low first-match threshold lookup:
churn probability p maps to critical iff p ≥ 0.8, high iff 0.6 ≤ p < 0.8,
medium iff 0.35 ≤ p < 0.6, low otherwise; a credit score s in [0,100] maps
to A iff s ≥ 75, B iff 55 ≤ s < 75, C iff 35 ≤ s < 55, D otherwise. -/
theorem creditTier_churnRiskLevel_thresholds (p : ℚ) (s : ℤ)
    (hs0 : 0 ≤ s) (hs1 : s ≤ 100) :
    (churnRiskLevel p = "critical" ↔ 4/5 ≤ p) ∧
    (churnRiskLevel p = "high" ↔ 3/5 ≤ p ∧ p < 4/5) ∧
    (churnRiskLevel p = "medium" ↔ 7/20 ≤ p ∧ p < 3/5) ∧
    (churnRiskLevel p = "low" ↔ p < 7/20) ∧
    (creditTier s = "A" ↔ 75 ≤ s) ∧
    (creditTier s = "B" ↔ 55 ≤ s ∧ s < 75) ∧
    (creditTier s = "C" ↔ 35 ≤ s ∧ s < 55) ∧
    (creditTier s = "D" ↔ s < 35) :=
  ⟨(churnRiskLevel_iff p).1, (churnRiskLevel_iff p).2.1,
   (churnRiskLevel_iff p).2.2.1, (churnRiskLevel_iff p).2.2.2,
   (creditTier_iff s).1, (creditTier_iff s).2.1,
   (creditTier_iff s).2.2.1, (creditTier_iff s).2.2.2⟩

/-- Witness for C6 at the boundary values p = 0.8 and s = 75. -/
theorem creditTier_churnRiskLevel_thresholds_witness :
    (0 : ℤ) ≤ 75 ∧ (75 : ℤ) ≤ 100 ∧
    churnRiskLevel (4/5) = "critical" ∧ creditTier 75 = "A" := by
  refine ⟨by decide, by decide, ?_, ?_⟩
  · exact (creditTier_churnRiskLevel_thresholds (4/5) 75 (by decide) (by decide)).1.mpr
      (by norm_num)
  · exact (creditTier_churnRiskLevel_thresholds (4/5) 75 (by decide) (by decide)).2.2.2.2.1.mpr
      (by decide)

/-! ## Stockout prediction (stockout.py) — claims C2, C5, C10

`StockoutFeatures` embeds the feature dict keyed by
`StockoutPredictor.FEATURE_NAMES` (stockout.py 61-74).
`StockoutPredictor.predictRuleBased` embeds the rule-based fallback branch of
`StockoutPredictor.predict` (stockout.py 164-250), the branch taken when no
trained model is loaded; the trained-model branch runs an external
scikit-learn classifier and is outside the rule-based claims.  The
human-readable `store_name` / `product_name` strings (fetched from the
database) and the formatted `factors` messages are not modelled: no claim
depends on them.
-/

structure StockoutFeatures where
  current_stock : ℚ := 0
  avg_daily_consumption : ℚ := 0
  consumption_variance : ℚ := 0
  lead_time_days : ℚ := 3
  day_of_week : ℚ := 0
  day_of_month : ℚ := 0
  month : ℚ := 0
  is_weekend : ℚ := 0
  days_since_last_restock : ℚ := 0
  order_frequency_30d : ℚ := 0
  stock_to_consumption_ratio : ℚ := 0
  trend_slope : ℚ := 0
deriving DecidableEq

/-- `StockoutPrediction` (stockout.py 31-45), numeric and identifying fields. -/
structure StockoutPrediction where
  store_id : String
  product_id : String
  probability : ℚ
  days_until_stockout : ℚ := 999
  current_stock : ℚ := 0
  avg_daily_consumption : ℚ := 0
  lead_time_days : ℚ := 3
  suggested_reorder_qty : ℚ := 0
  risk_level : String := "low"
deriving DecidableEq

/-- The rule-based probability ladder of `StockoutPredictor.predict`
(stockout.py 190-205).  Note the `avg_daily <= 0` guard is evaluated before
the `current_stock <= 0` guard. -/
def ruleBasedStockoutProbability (f : StockoutFeatures) : ℚ :=
  if f.avg_daily_consumption ≤ 0 then 1/10
  else if f.current_stock ≤ 0 then 19/20
  else
    if f.current_stock / f.avg_daily_consumption ≤ f.lead_time_days then 9/10
    else if f.current_stock / f.avg_daily_consumption ≤ f.lead_time_days * 2 then 3/5
    else if f.current_stock / f.avg_daily_consumption ≤ f.lead_time_days * 3 then 3/10
    else 1/10

/-- The tail of `StockoutPredictor.predict` (stockout.py 207-250) on the
rule-based path: days-until-stockout, reorder suggestion, risk level and the
rounded output record. -/
def StockoutPredictor.predictRuleBased (store_id product_id : String)
    (f : StockoutFeatures) : StockoutPrediction :=
  let probability := ruleBasedStockoutProbability f
  let days_until : ℚ :=
    if 0 < f.avg_daily_consumption then f.current_stock / f.avg_daily_consumption else 999
  let safety_stock := f.avg_daily_consumption * f.lead_time_days * (3/2)
  let suggested_qty := max 0 (f.avg_daily_consumption * 14 + safety_stock - f.current_stock)
  let risk_level :=
    if probability ≥ 4/5 then "critical"
    else if probability ≥ 3/5 then "high"
    else if probability ≥ 2/5 then "medium"
    else "low"
  { store_id := store_id
    product_id := product_id
    probability := roundTo 3 probability
    days_until_stockout := roundTo 1 days_until
    current_stock := roundTo 1 f.current_stock
    avg_daily_consumption := roundTo 2 f.avg_daily_consumption
    lead_time_days := f.lead_time_days
    suggested_reorder_qty := roundTo 0 suggested_qty
    risk_level := risk_level }

/-- A rule-based feature input with zero stock and zero consumption. -/
def zeroStockZeroConsumption : StockoutFeatures := {}

/-- Counterexample to C2 as stated: with `current_stock = 0` but
`avg_daily_consumption = 0`, the rule-based path returns probability 0.1,
not ≥ 0.95 — the `avg_daily <= 0` branch wins. -/
theorem stockout_zero_stock_not_high_probability :
    zeroStockZeroConsumption.current_stock ≤ 0 ∧
    (StockoutPredictor.predictRuleBased "store" "product"
        zeroStockZeroConsumption).probability = 1/10 ∧
    ¬ (19/20 : ℚ) ≤ (StockoutPredictor.predictRuleBased "store" "product"
        zeroStockZeroConsumption).probability := by
  refine ⟨by decide, ?_, ?_⟩ <;>
    simp [StockoutPredictor.predictRuleBased, ruleBasedStockoutProbability,
      zeroStockZeroConsumption, roundTo, pyRoundInt] <;> norm_num

/-- C2 amended: on the rule-based path, `current_stock <= 0` yields
probability ≥ 0.95 (in fact exactly 0.95) provided
`avg_daily_consumption > 0`; with `avg_daily_consumption <= 0` the
probability is 0.1 regardless of stock. -/
theorem stockout_zero_stock_high_probability (store_id product_id : String)
    (f : StockoutFeatures) (hstock : f.current_stock ≤ 0)
    (havg : 0 < f.avg_daily_consumption) :
    (19/20 : ℚ) ≤
      (StockoutPredictor.predictRuleBased store_id product_id f).probability := by
  have hprob : ruleBasedStockoutProbability f = 19/20 := by
    unfold ruleBasedStockoutProbability
    rw [if_neg (by linarith), if_pos hstock]
  show (19/20 : ℚ) ≤ roundTo 3 (ruleBasedStockoutProbability f)
  rw [hprob]
  norm_num [roundTo, pyRoundInt]

/-- Witness for C2 (amended) at zero stock and one unit of daily consumption. -/
theorem stockout_zero_stock_high_probability_witness :
    ({ current_stock := 0, avg_daily_consumption := 1 } : StockoutFeatures).current_stock ≤ 0 ∧
    (0 : ℚ) < ({ current_stock := 0, avg_daily_consumption := 1 } : StockoutFeatures).avg_daily_consumption ∧
    (19/20 : ℚ) ≤ (StockoutPredictor.predictRuleBased "store" "product"
      { current_stock := 0, avg_daily_consumption := 1 }).probability :=
  ⟨by decide, by decide,
    stockout_zero_stock_high_probability "store" "product"
      { current_stock := 0, avg_daily_consumption := 1 } (by decide) (by decide)⟩

/-! ### Batch stockout scan (`StockoutPredictor.scan_all`, stockout.py 252-313)

The scan iterates over the store-SKU combos fetched from the database and
calls `predict` on each inside `try/except`; predictions at or above
`STOCKOUT_THRESHOLD` are appended to `result.alerts`, which is finally
sorted by probability descending (Python's stable sort).  The embedding
takes the list of per-combo `predict` outcomes as input: `Except.ok p` for
a successful prediction, `Except.error ()` for an entity whose prediction
raised.  The wall-clock fields `scan_duration_seconds` and `scanned_at`
are real-time values and are not modelled.
-/

/-- `StockoutScanResult` (stockout.py 48-55) without the wall-clock fields. -/
structure StockoutScanResult where
  company_id : String
  total_scanned : ℕ := 0
  alerts : List StockoutPrediction := []
deriving DecidableEq

/-- Descending-probability order used by `result.alerts.sort(key=…, reverse=True)`. -/
def probGE (a b : StockoutPrediction) : Prop := b.probability ≤ a.probability

instance : DecidableRel probGE := fun a b =>
  inferInstanceAs (Decidable (b.probability ≤ a.probability))

instance : IsTotal StockoutPrediction probGE :=
  ⟨fun a b => le_total b.probability a.probability⟩

instance : IsTrans StockoutPrediction probGE :=
  ⟨fun _ _ _ h1 h2 => le_trans h2 h1⟩

/-- `StockoutPredictor.scan_all` (stockout.py 252-313) over the per-combo
prediction outcomes: count every combo, keep successful predictions at or
above the threshold, sort descending by probability (stable). -/
def StockoutPredictor.scanAll (company_id : String) (threshold : ℚ)
    (outcomes : List (Except Unit StockoutPrediction)) : StockoutScanResult :=
  let alerts := outcomes.filterMap fun o =>
    match o with
    | .ok p => if threshold ≤ p.probability then some p else none
    | .error _ => none
  { company_id := company_id
    total_scanned := outcomes.length
    alerts := alerts.insertionSort probGE }

/-- C10: in every scan result, alerts hold only predictions at or above the
threshold, sorted by probability in non-increasing order, while
`total_scanned` counts every scanned combo including those excluded. -/
theorem scanAll_alerts_thresholded_sorted (company_id : String) (threshold : ℚ)
    (outcomes : List (Except Unit StockoutPrediction)) :
    (∀ p ∈ (StockoutPredictor.scanAll company_id threshold outcomes).alerts,
        threshold ≤ p.probability) ∧
    (StockoutPredictor.scanAll company_id threshold outcomes).alerts.Sorted probGE ∧
    (StockoutPredictor.scanAll company_id threshold outcomes).total_scanned
      = outcomes.length := by
  refine ⟨?_, ?_, rfl⟩
  · intro p hp
    rw [StockoutPredictor.scanAll] at hp
    simp only [List.mem_insertionSort, List.mem_filterMap] at hp
    obtain ⟨o, _, ho⟩ := hp
    cases o with
    | ok q =>
      by_cases hq : threshold ≤ q.probability
      · simp [hq] at ho; exact ho ▸ hq
      · simp [hq] at ho
    | error e => simp at ho
  · exact List.sorted_insertionSort probGE _

/-- A prediction scoring above the alert threshold. -/
def highAlertPrediction : StockoutPrediction :=
  { store_id := "s1", product_id := "p1", probability := 9/10 }

/-- A prediction scoring below the alert threshold. -/
def belowThresholdPrediction : StockoutPrediction :=
  { store_id := "s", product_id := "p", probability := 1/10 }

/-- A concrete scan input: one alerting entity, one quiet entity, one failure. -/
def scanOutcomesExample : List (Except Unit StockoutPrediction) :=
  [Except.ok highAlertPrediction, Except.ok belowThresholdPrediction, Except.error ()]

/-- Witness for C10 on a concrete three-outcome scan. -/
theorem scanAll_alerts_thresholded_sorted_witness :
    highAlertPrediction
      ∈ (StockoutPredictor.scanAll "c" (7/10) scanOutcomesExample).alerts ∧
    (7/10 : ℚ) ≤ highAlertPrediction.probability := by
  have hmem : highAlertPrediction
      ∈ (StockoutPredictor.scanAll "c" (7/10) scanOutcomesExample).alerts := by
    norm_num [StockoutPredictor.scanAll, scanOutcomesExample, highAlertPrediction,
      belowThresholdPrediction, List.filterMap, List.insertionSort, List.orderedInsert]
  exact ⟨hmem,
    (scanAll_alerts_thresholded_sorted "c" (7/10) scanOutcomesExample).1
      highAlertPrediction hmem⟩

/-- Counterexample to C5 as stated: `StockoutScanResult` carries no error
list, so a scan whose only entity failed is indistinguishable from one
whose only entity succeeded below the threshold — the failed entity is not
reported back to the caller. -/
theorem scanAll_failure_not_reported :
    StockoutPredictor.scanAll "c" (7/10) [Except.error ()]
      = StockoutPredictor.scanAll "c" (7/10) [Except.ok belowThresholdPrediction] ∧
    (StockoutPredictor.scanAll "c" (7/10) [Except.error ()]).alerts = [] := by
  constructor <;>
    norm_num [StockoutPredictor.scanAll, belowThresholdPrediction,
      List.filterMap, List.insertionSort]

/-- C5 amended: a failing entity is swallowed — the scan continues, the
alerts are exactly those of the same scan without the failing entity
(partial results), and the failed entity is still counted in
`total_scanned`; no error list is returned. -/
theorem scanAll_continues_past_failures (company_id : String) (threshold : ℚ)
    (xs ys : List (Except Unit StockoutPrediction)) :
    (StockoutPredictor.scanAll company_id threshold
        (xs ++ Except.error () :: ys)).alerts
      = (StockoutPredictor.scanAll company_id threshold (xs ++ ys)).alerts ∧
    (StockoutPredictor.scanAll company_id threshold
        (xs ++ Except.error () :: ys)).total_scanned
      = xs.length + ys.length + 1 := by
  constructor
  · rw [StockoutPredictor.scanAll, StockoutPredictor.scanAll]
    simp [List.filterMap_append]
  · rw [StockoutPredictor.scanAll]
    simp [List.length_append]
    omega

/-! ## Demand forecasting (demand_forecast.py) — claims C7, C8, C9

`DemandPrediction` embeds the output record (demand_forecast.py 29-41).
The Prophet / XGBoost fitting and inference are external library calls;
their numeric outputs (forecast sums, the autoregressive XGBoost rollout
total, the trend slope, the weekly seasonality mean) enter the embedded
tail of `DemandForecaster.predict` as parameters.
-/

structure DemandPrediction where
  store_id : String
  product_id : String
  horizon_days : ℕ
  predicted_qty : ℚ
  lower_bound : ℚ := 0
  upper_bound : ℚ := 0
  confidence : ℚ := 0
  trend : String := "stable"
  seasonality_component : ℚ := 0
  model_version : String := "v1"
deriving DecidableEq

/-- `DemandForecaster.PROPHET_WEIGHT` (demand_forecast.py 47). -/
def DemandForecaster.PROPHET_WEIGHT : ℚ := 0.6

/-- `DemandForecaster.XGBOOST_WEIGHT` (demand_forecast.py 48). -/
def DemandForecaster.XGBOOST_WEIGHT : ℚ := 0.4

/-- The dict returned by `DemandForecaster.train` (demand_forecast.py 92 and
190-195), restricted to its discriminating fields (the `date_range` string
of the trained branch is date formatting and is not modelled). -/
structure TrainOutcome where
  status : String
  reason : Option String := none
  rows : Option ℕ := none
  key : Option String := none
  data_points : Option ℕ := none
deriving DecidableEq

/-- `DemandForecaster.train` (demand_forecast.py 64-195): the guard at lines
86-92 returns a skipped outcome for fewer than 14 history rows without
raising and without fitting anything; otherwise Prophet and XGBoost are fit
(external calls) and the trained outcome is returned.  `history` is the
(date, quantity) rows of `history_df`. -/
def DemandForecaster.train (store_id product_id : String)
    (history : List (ℚ × ℚ)) : TrainOutcome :=
  if history.length < 14 then
    { status := "skipped", reason := some "insufficient_data",
      rows := some history.length }
  else
    { status := "trained", key := some (store_id ++ "_" ++ product_id),
      data_points := some history.length }

/-- C9: training with fewer than 14 observations is reported as
`status="skipped", reason="insufficient_data"` and never raises; with at
least 14 observations the skip branch is not taken. -/
theorem train_skips_insufficient_data (store_id product_id : String)
    (history : List (ℚ × ℚ)) :
    ((DemandForecaster.train store_id product_id history).status
        = if history.length < 14 then "skipped" else "trained") ∧
    ((DemandForecaster.train store_id product_id history).reason
        = if history.length < 14 then some "insufficient_data" else none) := by
  unfold DemandForecaster.train
  split_ifs <;> simp

/-- The tail of `DemandForecaster.predict` on the trained-model path
(demand_forecast.py 231-324): clamp the Prophet horizon sums at zero,
ensemble with the fixed weights, derive trend label and confidence, round
the output fields.  `yhat_sum`, `yhat_lower_sum`, `yhat_upper_sum` are the
Prophet forecast sums over the horizon, `xgb_qty` the XGBoost
autoregressive rollout total (which the caller defaults to the Prophet
estimate when XGBoost is unavailable or fails), `trend_slope` the Prophet
trend delta and `seasonality` the mean weekly component. -/
def DemandForecaster.trainedPredict (store_id product_id : String)
    (horizon_days : ℕ) (yhat_sum yhat_lower_sum yhat_upper_sum xgb_qty
      trend_slope seasonality : ℚ) : DemandPrediction :=
  let prophet_qty := max 0 yhat_sum
  let prophet_lower := max 0 yhat_lower_sum
  let prophet_upper := max 0 yhat_upper_sum
  let trend :=
    if trend_slope > 0.5 then "increasing"
    else if trend_slope < -0.5 then "decreasing"
    else "stable"
  let ensemble_qty :=
    DemandForecaster.PROPHET_WEIGHT * prophet_qty
      + DemandForecaster.XGBOOST_WEIGHT * xgb_qty
  let interval_width := prophet_upper - prophet_lower
  let confidence := max 0 (min 1 (1 - interval_width / (ensemble_qty + 1/1000000)))
  { store_id := store_id
    product_id := product_id
    horizon_days := horizon_days
    predicted_qty := roundTo 1 ensemble_qty
    lower_bound := roundTo 1 prophet_lower
    upper_bound := roundTo 1 prophet_upper
    confidence := roundTo 3 confidence
    trend := trend
    seasonality_component := roundTo 2 seasonality
    model_version := "v1-prophet-xgb" }

/-- C7: the ensemble weights are the fixed constants 0.6 and 0.4, summing to
exactly 1, and every trained-model prediction is the weighted combination
0.6 × Prophet estimate + 0.4 × XGBoost estimate (rounded to one decimal in
the output field). -/
theorem ensemble_weights_fixed (store_id product_id : String) (horizon_days : ℕ)
    (yhat_sum yhat_lower_sum yhat_upper_sum xgb_qty trend_slope seasonality : ℚ) :
    DemandForecaster.PROPHET_WEIGHT = 3/5 ∧
    DemandForecaster.XGBOOST_WEIGHT = 2/5 ∧
    DemandForecaster.PROPHET_WEIGHT + DemandForecaster.XGBOOST_WEIGHT = 1 ∧
    (DemandForecaster.trainedPredict store_id product_id horizon_days
        yhat_sum yhat_lower_sum yhat_upper_sum xgb_qty trend_slope
        seasonality).predicted_qty
      = roundTo 1 (3/5 * max 0 yhat_sum + 2/5 * xgb_qty) := by
  refine ⟨by norm_num [DemandForecaster.PROPHET_WEIGHT],
    by norm_num [DemandForecaster.XGBOOST_WEIGHT],
    by norm_num [DemandForecaster.PROPHET_WEIGHT, DemandForecaster.XGBOOST_WEIGHT], ?_⟩
  unfold DemandForecaster.trainedPredict
  norm_num [DemandForecaster.PROPHET_WEIGHT, DemandForecaster.XGBOOST_WEIGHT]

/-- `DemandForecaster._heuristic_predict` (demand_forecast.py 357-397): the
average daily quantity `avg_daily` is computed by an external SQL query;
the prediction is `avg_daily * horizon_days` with ±30% bounds, fixed
confidence 0.3 and version tag "v0-heuristic". -/
def DemandForecaster.heuristicPredict (store_id product_id : String)
    (horizon_days : ℕ) (avg_daily : ℚ) : DemandPrediction :=
  let predicted := avg_daily * horizon_days
  { store_id := store_id
    product_id := product_id
    horizon_days := horizon_days
    predicted_qty := roundTo 1 predicted
    lower_bound := roundTo 1 (predicted * 0.7)
    upper_bound := roundTo 1 (predicted * 1.3)
    confidence := 0.3
    trend := "stable"
    model_version := "v0-heuristic" }

/-- Counterexample to C8 as stated: `predicted_qty` is `round(predicted, 1)`
(demand_forecast.py 391), so for avg_daily = 0.01 and horizon 1 the output
field is 0.0, not avg_daily × h = 0.01. -/
theorem heuristic_predict_not_exactly_linear :
    (DemandForecaster.heuristicPredict "s" "p" 1 (1/100)).predicted_qty = 0 ∧
    (DemandForecaster.heuristicPredict "s" "p" 1 (1/100)).predicted_qty
      ≠ (1/100 : ℚ) * ((1 : ℕ) : ℚ) := by
  have h : (DemandForecaster.heuristicPredict "s" "p" 1 (1/100)).predicted_qty = 0 := by
    show roundTo 1 ((1/100 : ℚ) * ((1 : ℕ) : ℚ)) = 0
    norm_num [roundTo, pyRoundInt]
  refine ⟨h, ?_⟩
  rw [h]
  norm_num

/-- C8 amended: the heuristic prediction is `avg_daily × horizon` rounded
half-even to one decimal place (hence exact on the cited examples), never
negative for non-negative avg_daily, zero at avg_daily = 0, with bounds at
±30% of the estimate (also rounded to one decimal), confidence fixed at 0.3
and model version "v0-heuristic". -/
theorem heuristic_predict_linear_up_to_rounding (store_id product_id : String)
    (horizon_days : ℕ) (avg_daily : ℚ) (ha : 0 ≤ avg_daily) :
    (DemandForecaster.heuristicPredict store_id product_id horizon_days
        avg_daily).predicted_qty = roundTo 1 (avg_daily * horizon_days) ∧
    0 ≤ (DemandForecaster.heuristicPredict store_id product_id horizon_days
        avg_daily).predicted_qty ∧
    (avg_daily = 0 →
      (DemandForecaster.heuristicPredict store_id product_id horizon_days
        avg_daily).predicted_qty = 0) ∧
    (DemandForecaster.heuristicPredict store_id product_id horizon_days
        avg_daily).lower_bound = roundTo 1 (avg_daily * horizon_days * (7/10)) ∧
    (DemandForecaster.heuristicPredict store_id product_id horizon_days
        avg_daily).upper_bound = roundTo 1 (avg_daily * horizon_days * (13/10)) ∧
    (DemandForecaster.heuristicPredict store_id product_id horizon_days
        avg_daily).confidence = 3/10 ∧
    (DemandForecaster.heuristicPredict store_id product_id horizon_days
        avg_daily).model_version = "v0-heuristic" := by
  refine ⟨rfl, ?_, ?_, by norm_num [DemandForecaster.heuristicPredict],
    by norm_num [DemandForecaster.heuristicPredict],
    by norm_num [DemandForecaster.heuristicPredict], rfl⟩
  · exact roundTo_nonneg (by positivity)
  · intro h0
    show roundTo 1 (avg_daily * horizon_days) = 0
    rw [h0, zero_mul, roundTo_zero]

/-- Witness for C8 (amended) at avg_daily = 10 and horizon 7: the predicted
quantity is exactly 70. -/
theorem heuristic_predict_linear_witness :
    (0 : ℚ) ≤ 10 ∧
    (DemandForecaster.heuristicPredict "s" "p" 7 10).predicted_qty
      = roundTo 1 (10 * (7 : ℕ)) ∧
    (DemandForecaster.heuristicPredict "s" "p" 7 10).predicted_qty = 70 := by
  have h := (heuristic_predict_linear_up_to_rounding "s" "p" 7 10 (by norm_num)).1
  refine ⟨by norm_num, h, h.trans ?_⟩
  norm_num [roundTo, pyRoundInt]

/-! ## Model persistence — claim C3

The stockout, attrition and credit predictors share one load/save shape
(`StockoutPredictor._load_model` stockout.py 436-449,
`AttritionPredictor._load_model` attrition.py 417-428,
`CreditScorer._load_model` credit_score.py 419-430, and the corresponding
`_save_model`s): `_load_model` installs both pickles only when both files
exist, otherwise it silently does nothing; `_save_model` writes the model
pickle and then the scaler pickle, each only if the in-memory object is
set, inside one `try` whose `except` merely logs.
`DemandForecaster._load_model` / `_save_model` (demand_forecast.py 399-430)
instead handle the Prophet and the XGBoost artifacts with two independent
existence checks.  The filesystem is modelled as optional file contents;
`scaler_write_fails` injects an exception between the two pickle writes
(the broad `except` swallows it). -/

structure PairDisk (α β : Type) where
  model_file : Option α := none
  scaler_file : Option β := none
deriving DecidableEq

structure PairState (α β : Type) where
  model : Option α := none
  scaler : Option β := none
deriving DecidableEq

/-- The common `_load_model` of the stockout / attrition / credit
predictors: install both artifacts iff both files exist, else leave the
in-memory state untouched; no error is raised either way. -/
def pairedLoadModel {α β : Type} (disk : PairDisk α β)
    (st : PairState α β) : PairState α β :=
  if disk.model_file.isSome && disk.scaler_file.isSome then
    { model := disk.model_file, scaler := disk.scaler_file }
  else st

/-- The common `_save_model` of the stockout / attrition / credit
predictors: write the model pickle if set, then the scaler pickle if set;
`scaler_write_fails` injects an exception between the two writes, which the
`except` clause swallows after the first write has already happened. -/
def pairedSaveModel {α β : Type} (st : PairState α β) (disk : PairDisk α β)
    (scaler_write_fails : Bool) : PairDisk α β :=
  let disk1 :=
    if st.model.isSome then { disk with model_file := st.model } else disk
  if scaler_write_fails then disk1
  else if st.scaler.isSome then { disk1 with scaler_file := st.scaler } else disk1

structure DemandDisk (π ξ : Type) where
  prophet_file : Option π := none
  xgb_file : Option ξ := none
deriving DecidableEq

structure DemandState (π ξ : Type) where
  prophet : Option π := none
  xgb : Option ξ := none
deriving DecidableEq

/-- `DemandForecaster._load_model` (demand_forecast.py 413-430) for one key:
each artifact is loaded independently of the other, whenever its own file
exists. -/
def demandLoadModel {π ξ : Type} (disk : DemandDisk π ξ)
    (st : DemandState π ξ) : DemandState π ξ :=
  { prophet := if disk.prophet_file.isSome then disk.prophet_file else st.prophet
    xgb := if disk.xgb_file.isSome then disk.xgb_file else st.xgb }

/-- Counterexample to C3 as stated: for the demand domain, a lone Prophet
artifact (XGBoost file absent) is loaded and installed — the load is not an
error and a half-loaded state results. -/
theorem demand_lone_artifact_half_loads :
    demandLoadModel (DemandDisk.mk (some 1) none : DemandDisk ℕ ℕ)
        (DemandState.mk none none)
      = DemandState.mk (some 1) none ∧
    (demandLoadModel (DemandDisk.mk (some 1) none : DemandDisk ℕ ℕ)
        (DemandState.mk none none)).prophet ≠ none ∧
    (demandLoadModel (DemandDisk.mk (some 1) none : DemandDisk ℕ ℕ)
        (DemandState.mk none none)).xgb = none := by
  refine ⟨rfl, ?_, rfl⟩
  simp [demandLoadModel]

/-- C3 amended: for the stockout, credit and attrition domains, loading
from an empty in-memory state installs trained state iff both artifacts are
present, and a lone artifact is silently ignored (no error, no half state);
for the demand domain the two artifacts load independently, so a lone
artifact installs a half-loaded state; saving writes the in-memory
artifacts one after the other with no rollback — when the second write
fails, the first write persists, leaving a partial pair on disk. -/
theorem persistence_load_save_semantics {α β : Type}
    (disk : PairDisk α β) (st : PairState α β)
    (ddisk : DemandDisk α β) (dst : DemandState α β)
    (hm : st.model = none) (hs : st.scaler = none) :
    ((pairedLoadModel disk st).model.isSome
        ↔ disk.model_file.isSome ∧ disk.scaler_file.isSome) ∧
    ((pairedLoadModel disk st).scaler.isSome
        ↔ disk.model_file.isSome ∧ disk.scaler_file.isSome) ∧
    ((demandLoadModel ddisk dst).prophet
        = if ddisk.prophet_file.isSome then ddisk.prophet_file else dst.prophet) ∧
    ((demandLoadModel ddisk dst).xgb
        = if ddisk.xgb_file.isSome then ddisk.xgb_file else dst.xgb) ∧
    (∀ (st2 : PairState α β) (disk2 : PairDisk α β), st2.model.isSome →
      (pairedSaveModel st2 disk2 true).model_file = st2.model ∧
      (pairedSaveModel st2 disk2 true).scaler_file = disk2.scaler_file) := by
  refine ⟨?_, ?_, rfl, rfl, ?_⟩
  · unfold pairedLoadModel
    split_ifs with h <;> simp_all
  · unfold pairedLoadModel
    split_ifs with h <;> simp_all
  · intro st2 disk2 h2
    unfold pairedSaveModel
    simp [h2]

/-- Witness for C3 (amended): a complete pair on disk loads for the paired
domains, and a failing scaler write after a successful model write leaves
the new model next to the old scaler. -/
theorem persistence_load_save_semantics_witness :
    (PairState.mk (none : Option ℕ) (none : Option ℕ)).model = none ∧
    (pairedLoadModel (PairDisk.mk (some 1) (some 2))
        (PairState.mk (none : Option ℕ) (none : Option ℕ))).model.isSome ∧
    (pairedSaveModel (PairState.mk (some 3) (some 4))
        (PairDisk.mk (none : Option ℕ) (none : Option ℕ)) true).scaler_file = none := by
  have h := persistence_load_save_semantics
    (PairDisk.mk (some 1) (some 2)) (PairState.mk (none : Option ℕ) (none : Option ℕ))
    (DemandDisk.mk (none : Option ℕ) (none : Option ℕ))
    (DemandState.mk (none : Option ℕ) (none : Option ℕ)) rfl rfl
  refine ⟨rfl, h.1.mpr (by simp), ?_⟩
  exact (h.2.2.2.2 (PairState.mk (some 3) (some 4))
    (PairDisk.mk (none : Option ℕ) (none : Option ℕ)) (by simp)).2

/-! ## Route optimization (route_optimizer.py) — claims C1, C4

`RouteOptimizer.optimize` (route_optimizer.py 76-193) is embedded after the
database fetch: `stores` is the fetched `StoreLocation` list and `start?`
the optional synthetic starting point.  The great-circle `_haversine_km`
uses transcendental functions, so the pairwise distance is a parameter
`dist`; every claim here is independent of the actual distance values.
The OR-Tools solve (`_solve_tsp`, lines 211-261) is external: its outcome
enters as `tspResult` — `none` models the solver raising (caught at line
160, triggering the `_nearest_neighbour` fallback), and `some r` models a
successful solve, where `r` is the index route the extraction loop at lines
252-259 returns: it walks from the depot through the tour and then appends
the final node, which for a single-vehicle OR-Tools routing model is the
depot again, so a successful solve on n nodes yields
`[0, i₁, …, iₙ₋₁, 0]`. -/

/-- `StoreLocation` (route_optimizer.py 24-32). -/
structure StoreLocation where
  store_id : String
  store_name : String := ""
  lat : ℚ
  lng : ℚ
  priority : ℤ := 50
  estimated_visit_minutes : ℤ := 15
deriving DecidableEq

/-- `OptimizedRoute` (route_optimizer.py 35-44); waypoints as (lat, lng). -/
structure OptimizedRoute where
  rep_id : String
  ordered_stores : List StoreLocation := []
  total_distance_km : ℚ := 0
  estimated_duration_minutes : ℚ := 0
  start_location : Option StoreLocation := none
  optimization_status : String := "optimal"
  waypoints : List (ℚ × ℚ) := []
deriving DecidableEq

/-- `RouteOptimizer.AVG_SPEED_KMH` (route_optimizer.py 66). -/
def RouteOptimizer.AVG_SPEED_KMH : ℚ := 25

def dummyStore : StoreLocation := { store_id := "", lat := 0, lng := 0 }

/-- `RouteOptimizer._build_distance_matrix` (route_optimizer.py 195-209):
symmetric, zero diagonal, one `dist` evaluation per unordered pair. -/
def buildDistanceMatrix (dist : StoreLocation → StoreLocation → ℚ)
    (nodes : List StoreLocation) : List (List ℚ) :=
  (List.range nodes.length).map fun i =>
    (List.range nodes.length).map fun j =>
      if i = j then 0
      else if i < j then dist (nodes.getD i dummyStore) (nodes.getD j dummyStore)
      else dist (nodes.getD j dummyStore) (nodes.getD i dummyStore)

/-- The inner `for j in range(n)` scan of `_nearest_neighbour`
(route_optimizer.py 273-278): nearest unvisited node by strict improvement
over an infinite initial distance, first minimum winning. -/
def findNearest (row : List ℚ) (visited : List ℕ) (n : ℕ) : Option ℕ :=
  ((List.range n).foldl
    (fun best j =>
      if visited.contains j then best
      else
        match best with
        | none => some (j, row.getD j 0)
        | some (b, bd) =>
          if row.getD j 0 < bd then some (j, row.getD j 0) else some (b, bd))
    none).map Prod.fst

/-- The `while len(visited) < n` loop of `_nearest_neighbour`
(route_optimizer.py 272-283), with explicit fuel: the loop adds one node
per iteration, so `n` iterations always suffice. -/
def nnGo (matrix : List (List ℚ)) (n : ℕ) :
    ℕ → List ℕ → List ℕ → ℕ → List ℕ
  | 0, _, route, _ => route.reverse
  | fuel + 1, visited, route, current =>
    if visited.length < n then
      match findNearest (matrix.getD current []) visited n with
      | some j => nnGo matrix n fuel (j :: visited) (j :: route) j
      | none => route.reverse
    else route.reverse

/-- `RouteOptimizer._nearest_neighbour` (route_optimizer.py 263-285). -/
def nearestNeighbour (matrix : List (List ℚ)) (depot : ℕ) : List ℕ :=
  nnGo matrix matrix.length matrix.length [depot] [depot] depot

/-- The consecutive-leg distance sum of `RouteOptimizer.optimize`
(route_optimizer.py 169-172). -/
def pathDistance (matrix : List (List ℚ)) : List ℕ → ℚ
  | a :: b :: rest => (matrix.getD a []).getD b 0 + pathDistance matrix (b :: rest)
  | _ => 0

/-- `RouteOptimizer.optimize` (route_optimizer.py 76-193) after the store
fetch.  Empty store list: `not_solved`.  One or two stores: trivial
ordering, no solver.  Three or more: build nodes (the synthetic start, when
given, is node 0, else the first store is the depot), solve or fall back to
nearest-neighbour, then emit the nodes of the route, skipping index 0 only
when the start is synthetic.  The status is "optimal" on both solve paths. -/
def RouteOptimizer.optimize (dist : StoreLocation → StoreLocation → ℚ)
    (tspResult : Option (List ℕ)) (rep_id : String)
    (stores : List StoreLocation) (start? : Option StoreLocation) :
    OptimizedRoute :=
  match stores with
  | [] => { rep_id := rep_id, optimization_status := "not_solved" }
  | s0 :: rest =>
    if (s0 :: rest).length ≤ 2 then
      let startLeg := match start? with
        | some st => dist st s0
        | none => 0
      let pairLeg := match rest with
        | b :: _ => dist s0 b
        | [] => 0
      let total_dist := startLeg + pairLeg
      let visit_time : ℚ := ((((s0 :: rest).map
        (fun s => s.estimated_visit_minutes)).sum : ℤ) : ℚ)
      let travel_time := total_dist / RouteOptimizer.AVG_SPEED_KMH * 60
      { rep_id := rep_id
        ordered_stores := s0 :: rest
        total_distance_km := roundTo 2 total_dist
        estimated_duration_minutes := roundTo 0 (visit_time + travel_time)
        start_location := start?
        optimization_status := "optimal" }
    else
      let nodes := match start? with
        | some st => st :: s0 :: rest
        | none => s0 :: rest
      let matrix := buildDistanceMatrix dist nodes
      let route_indices := match tspResult with
        | some r => r
        | none => nearestNeighbour matrix 0
      let total_dist := pathDistance matrix route_indices
      let kept := route_indices.filter
        (fun idx => !(start?.isSome && idx == 0))
      let ordered_stores := kept.map (fun idx => nodes.getD idx dummyStore)
      let waypoints := ordered_stores.map (fun n => (n.lat, n.lng))
      let visit_time : ℚ := (((ordered_stores.map
        (fun s => s.estimated_visit_minutes)).sum : ℤ) : ℚ)
      let travel_time := total_dist / RouteOptimizer.AVG_SPEED_KMH * 60
      { rep_id := rep_id
        ordered_stores := ordered_stores
        total_distance_km := roundTo 2 total_dist
        estimated_duration_minutes := roundTo 0 (visit_time + travel_time)
        start_location := start?
        optimization_status := "optimal"
        waypoints := waypoints }

def storeA : StoreLocation := { store_id := "A", lat := 0, lng := 0 }

def storeB : StoreLocation := { store_id := "B", lat := 1, lng := 0 }

def storeC : StoreLocation := { store_id := "C", lat := 0, lng := 1 }

/-- C1 fails on the code: with three resolvable stops, no start location
and a successful solve — the solver's closed tour `[0, 1, 2, 0]` starts and
ends at the depot, which here is the real store A — the emitted ordering
contains store A twice (the depot is only skipped when a synthetic start
was supplied), so the output is not a permutation of the input stops. -/
theorem optimize_tsp_duplicates_depot_store :
    ((RouteOptimizer.optimize (fun _ _ => 1) (some [0, 1, 2, 0]) "rep"
        [storeA, storeB, storeC] none).ordered_stores.map
          (fun s => s.store_id)) = ["A", "B", "C", "A"] ∧
    ¬ (RouteOptimizer.optimize (fun _ _ => 1) (some [0, 1, 2, 0]) "rep"
        [storeA, storeB, storeC] none).ordered_stores.Perm
      [storeA, storeB, storeC] := by
  constructor <;>
    simp [RouteOptimizer.optimize, storeA, storeB, storeC, dummyStore,
      List.filter, List.getD]

/-- C4 fails on the code: when the solver fails (`tspResult = none`) the
greedy nearest-neighbour fallback runs — it does visit every store exactly
once — but the returned `optimization_status` is the literal "optimal"
(route_optimizer.py 191) on the fallback path just as on the solver path,
so the flag does not distinguish degraded output; no exception reaches the
caller (the embedding is a total function). -/
theorem optimize_fallback_status_says_optimal :
    (RouteOptimizer.optimize (fun _ _ => 1) none "rep"
        [storeA, storeB, storeC] none).optimization_status = "optimal" ∧
    ((RouteOptimizer.optimize (fun _ _ => 1) none "rep"
        [storeA, storeB, storeC] none).ordered_stores.map
          (fun s => s.store_id)) = ["A", "B", "C"] ∧
    (RouteOptimizer.optimize (fun _ _ => 1) (some [0, 1, 2, 0]) "rep"
        [storeA, storeB, storeC] none).optimization_status = "optimal" := by
  refine ⟨rfl, ?_, rfl⟩
  norm_num [RouteOptimizer.optimize, storeA, storeB, storeC, dummyStore,
    nearestNeighbour, nnGo, findNearest, buildDistanceMatrix, List.range,
    List.range.loop, List.filter, List.getD]

end OpenSalesAI
